import Mathlib

/-!
Verification of the Fraudinator browser-side fraud-detection heuristics.

The development shallowly embeds the scoring core of the repository:

* the `FraudDetector` class (two revisions of the same class appear in the
  repository; they are embedded as the namespaces `Part003` and `Part004`,
  after the source files they come from),
* the `LocationBehaviorAnalyzer` class (behavioural analysis of successive
  geolocation fixes, including the haversine distance),
* the `ExtensionDetector.detectBasicArtifacts` method.

Browser state that the code reads (DOM probes, `navigator` fields, the
`Intl`-resolved timezone offset, geolocation outcomes) is passed in as an
explicit environment record; machine numbers are modelled as rationals
(reals where trigonometry is involved), and `throw`/`reject` paths as
`Except`.
-/

namespace Fraudinator

/-- Containment of one character list inside another as a contiguous run. -/
def infixOfB (needle : List Char) : List Char → Bool
  | [] => needle.isEmpty
  | c :: t => needle.isPrefixOf (c :: t) || infixOfB needle t

/-- JavaScript `String.prototype.includes`, modelled as infix containment of
the character lists. -/
def jsIncludes (hay needle : String) : Bool :=
  infixOfB needle.toList hay.toList

/-- JavaScript `Math.trunc`, the truncation toward zero that underlies the
`%` remainder operator. -/
def jsTrunc (x : ℚ) : ℤ := if 0 ≤ x then ⌊x⌋ else ⌈x⌉

/-- JavaScript `x % 1` (remainder with the sign of the dividend). -/
def jsMod1 (x : ℚ) : ℚ := x - jsTrunc x

/-- Value of the JavaScript expression `v || d` for a numeric property that
may be unset (`none`) or zero — both falsy. -/
def jsOrNum (v : Option ℚ) (d : ℚ) : ℚ :=
  match v with
  | none => d
  | some x => if x = 0 then d else x

/-- Digit run to a natural number, most significant digit first. -/
def digitsToNat (cs : List Char) : ℕ :=
  cs.foldl (fun n c => 10 * n + (c.toNat - (48 : ℕ))) 0

/-- JavaScript `ToNumber` on a string, restricted to plain decimal literals
with an optional sign and fraction.  Any other string (in particular the
`UTC+7`-style labels produced by the `Part004` revision of
`getTimezoneFromCoords`) converts to NaN, modelled as `none`; every
comparison against NaN is false. -/
def jsToNumber (s : String) : Option ℚ :=
  let cs := s.toList
  let signAndRest : ℚ × List Char :=
    match cs with
    | '-' :: r => (-1, r)
    | '+' :: r => (1, r)
    | r => (1, r)
  let intPart := signAndRest.2.takeWhile Char.isDigit
  let rest := signAndRest.2.dropWhile Char.isDigit
  match rest with
  | [] =>
    if intPart.isEmpty then none
    else some (signAndRest.1 * digitsToNat intPart)
  | '.' :: frac =>
    if frac.all Char.isDigit ∧ ¬(intPart.isEmpty ∧ frac.isEmpty) then
      some (signAndRest.1 *
        ((digitsToNat intPart : ℚ) + (digitsToNat frac : ℚ) / 10 ^ frac.length))
    else none
  | _ => none

namespace FraudDetector

/-- The location fix stored by `FraudDetector.analyzeLocation`:
`{latitude, longitude, accuracy, timestamp, responseTime}`. -/
structure LocationData where
  latitude : ℚ
  longitude : ℚ
  accuracy : ℚ
  timestamp : ℚ
  responseTime : ℚ
deriving DecidableEq, Repr

/-- Named coordinate entry of the `devToolsDefaults` / `emulatorCoords`
tables. -/
structure NamedCoord where
  lat : ℚ
  lng : ℚ
  name : String
deriving DecidableEq, Repr

/-- The `devToolsDefaults` table of `detectLocationSignatures` (identical in
both revisions of the class). -/
def devToolsDefaults : List NamedCoord :=
  [⟨37.4224764, -122.0842499, "Google HQ (DevTools default)"⟩,
   ⟨37.386052, -122.083851, "Mountain View (DevTools default)"⟩,
   ⟨37.7749, -122.4194, "San Francisco (DevTools default)"⟩,
   ⟨40.7128, -74.0060, "New York (DevTools default)"⟩,
   ⟨51.5074, -0.1278, "London (DevTools default)"⟩]

/-- The `emulatorCoords` table of `detectLocationSignatures`. -/
def emulatorCoords : List NamedCoord :=
  [⟨0, 0, "Null Island (0,0)"⟩,
   ⟨37.421998333333335, -122.08400000000002, "Android Emulator Default"⟩]

/-- The `suspiciousCoords` table of `isSuspiciousLocation`. -/
def suspiciousCoords : List (ℚ × ℚ) :=
  [(37.7749, -122.4194), (40.7128, -74.0060), (51.5074, -0.1278)]

/-- The `criticalPatterns` table of `checkCriticalSpoofingIndicators`
(identical in both revisions). -/
def criticalPatterns : List String :=
  ["DevTools signature", "DevTools default location", "Timezone mismatch",
   "accuracy exactly 150", "Google HQ (DevTools default)",
   "Mountain View (DevTools default)", "San Francisco (DevTools default)",
   "New York (DevTools default)", "London (DevTools default)",
   "Android Emulator Default", "Null Island (0,0)",
   "Emulator coordinates detected"]

/-- The `forEach` accumulation pattern used by `detectLocationSignatures`:
for every table entry that matches, add a fixed number of points and push one
indicator string. -/
def forEachAdd {α : Type} (p : α → Bool) (pts : ℚ) (mk : α → String)
    (l : List α) (acc : ℚ × List String) : ℚ × List String :=
  l.foldl (fun a c => if p c then (a.1 + pts, a.2 ++ [mk c]) else a) acc

/-- The `isSuspiciousLocation(lat, lng)` method: null island within 0.1°, or
one of three commonly spoofed city centroids within 0.01°. -/
def isSuspiciousLocation (lat lng : ℚ) : Bool :=
  if |lat| < 0.1 ∧ |lng| < 0.1 then true
  else suspiciousCoords.any fun c => decide (|lat - c.1| < 0.01 ∧ |lng - c.2| < 0.01)

/-- The `checkCriticalSpoofingIndicators(indicators)` method: some indicator
string contains some critical pattern as a substring. -/
def checkCriticalSpoofingIndicators (indicators : List String) : Bool :=
  indicators.any fun indicator => criticalPatterns.any fun pattern => jsIncludes indicator pattern

/-- The `detectLocationSignatures()` method (identical in both revisions).
The `numToString` parameter stands for JavaScript's default number-to-string
rendering, used only by the `.000000`-precision probe; it is supplied by the
environment because the exact shortest-round-trip rendering of a float is
outside the rational model.  Digit strings can never contain any of the
letter patterns the aggregator matches on, so no claim depends on it. -/
def detectLocationSignatures (locationData : Option LocationData)
    (numToString : ℚ → String) : ℚ × List String :=
  match locationData with
  | none => (0, [])
  | some loc =>
    let acc0 : ℚ × List String :=
      if loc.accuracy = 150 then
        (50, ["DevTools signature: accuracy exactly 150m detected"])
      else (0, [])
    let acc1 := forEachAdd
      (fun c => decide (|loc.latitude - c.lat| < 0.0001 ∧ |loc.longitude - c.lng| < 0.0001))
      60 (fun c => "DevTools default location detected: " ++ c.name)
      devToolsDefaults acc0
    let acc2 :=
      if jsIncludes (numToString loc.latitude) ".000000" ||
         jsIncludes (numToString loc.longitude) ".000000" then
        (acc1.1 + 30, acc1.2 ++ ["Unrealistic coordinate precision detected"])
      else acc1
    forEachAdd
      (fun c => decide (|loc.latitude - c.lat| < 0.001 ∧ |loc.longitude - c.lng| < 0.001))
      40 (fun c => "Emulator coordinates detected: " ++ c.name)
      emulatorCoords acc2

/-- Proof-infrastructure name for the accuracy-exactly-150 stage of
`detectLocationSignatures`. -/
def sigAcc0 (loc : LocationData) : ℚ × List String :=
  if loc.accuracy = 150 then
    (50, ["DevTools signature: accuracy exactly 150m detected"])
  else (0, [])

/-- Proof-infrastructure name for the DevTools-default hit predicate. -/
def sigDevP (loc : LocationData) : NamedCoord → Bool :=
  fun c => decide (|loc.latitude - c.lat| < 0.0001 ∧ |loc.longitude - c.lng| < 0.0001)

/-- Proof-infrastructure name for the emulator-coordinate hit predicate. -/
def sigEmP (loc : LocationData) : NamedCoord → Bool :=
  fun c => decide (|loc.latitude - c.lat| < 0.001 ∧ |loc.longitude - c.lng| < 0.001)

/-- Proof-infrastructure name for the `.000000`-precision stage. -/
def sigPrec (f : ℚ → String) (loc : LocationData) (acc : ℚ × List String) :
    ℚ × List String :=
  if jsIncludes (f loc.latitude) ".000000" || jsIncludes (f loc.longitude) ".000000" then
    (acc.1 + 30, acc.2 ++ ["Unrealistic coordinate precision detected"])
  else acc

/-- The `getRiskLevel(score)` method (identical in both revisions). -/
def getRiskLevel (score : ℚ) : String :=
  if score < 20 then "LOW"
  else if score < 40 then "MEDIUM"
  else if score < 60 then "HIGH"
  else "CRITICAL"

/-- Return shape of `detectLocationSpoofing`. -/
structure SpoofResult where
  spoofingScore : ℚ
  spoofingIndicators : List String
  isLocationSpoofed : Bool
deriving DecidableEq, Repr

/-- The slice of `FraudDetector` instance state (plus ambient browser state)
read by `detectLocationSpoofing`.  `browserOffset` is the value of
`getTimezoneOffsetFromName(Intl.DateTimeFormat().resolvedOptions().timeZone)`;
that helper formats a fixed winter instant through `Intl` and never throws,
so it is environment data here, with `none` standing for the whole
`try`-block aborting because the timezone APIs are unavailable.
`numToString` is JavaScript's default number rendering (see
`detectLocationSignatures`). -/
structure SpoofState where
  locationData : Option LocationData
  browserTimezone : String
  browserOffset : Option ℚ
  locationSpoofedByDevTools : Bool
  locationSpoofingScore : Option ℚ
  locationSpoofingIndicators : Option (List String)
  behavioralScore : ℚ
  behavioralIndicators : List String
  locationSpoofedByBehavior : Bool
  numToString : ℚ → String

/-- Response-time step of `detectLocationSpoofing` (identical in both
revisions): `responseTime < 100` adds 15 points. -/
def stepResponse (loc : LocationData) : ℚ × List String :=
  if loc.responseTime < 100 then (15, ["Suspiciously fast geolocation response"])
  else (0, [])

/-- Accuracy step: `< 5` adds 10 points, `> 10000` adds 5. -/
def stepAccuracy (loc : LocationData) : ℚ × List String :=
  if loc.accuracy < 5 then (10, ["Unrealistically high accuracy"])
  else if loc.accuracy > 10000 then (5, ["Very low accuracy"])
  else (0, [])

/-- Rounded-coordinate step: `Math.abs(lat % 1) < 0.001` (or the same for the
longitude) adds 20 points. -/
def stepRounded (loc : LocationData) : ℚ × List String :=
  if |jsMod1 loc.latitude| < 0.001 ∨ |jsMod1 loc.longitude| < 0.001 then
    (20, ["Coordinates appear rounded/artificial"])
  else (0, [])

/-- Suspicious-location step: `isSuspiciousLocation` adds 30 points. -/
def stepSuspicious (loc : LocationData) : ℚ × List String :=
  if isSuspiciousLocation loc.latitude loc.longitude then
    (30, ["Location appears to be in suspicious area"])
  else (0, [])

/-- DevTools-override step: when the sticky `locationSpoofedByDevTools` flag
is set, fold in `locationSpoofingScore || 100` and the stored indicators. -/
def stepDevToolsState (s : SpoofState) : ℚ × List String :=
  if s.locationSpoofedByDevTools then
    (jsOrNum s.locationSpoofingScore 100, s.locationSpoofingIndicators.getD [])
  else (0, [])

/-- Behavioural step: a positive behavioural score and its indicators are
folded in. -/
def stepBehavioral (s : SpoofState) : ℚ × List String :=
  if s.behavioralScore > 0 then (s.behavioralScore, s.behavioralIndicators)
  else (0, [])

namespace Part003

/-- The `getTimezoneFromCoords(lat, lng)` of the part_003 revision: the
numeric longitude approximation `Math.round(lng / 15)` (the latitude is
ignored by the code). -/
def getTimezoneFromCoords (lat lng : ℚ) : ℤ :=
  round (lng / 15)

/-- The timezone comparison of the part_003 revision of
`detectLocationSpoofing`: `Math.abs(browserOffset - locationOffset) > 1`. -/
def timezoneMismatchFlag (browserOffset lat lng : ℚ) : Bool :=
  decide (|browserOffset - (getTimezoneFromCoords lat lng : ℚ)| > 1)

/-- Indicator string pushed by the part_003 timezone comparison. -/
def tzMismatchIndicator (tzName : String) (b : ℚ) (lo : ℤ)
    (numToString : ℚ → String) : String :=
  "Timezone mismatch: Browser(" ++ tzName ++ "/" ++
    (if 0 ≤ b then "+" else "") ++ numToString b ++
    ") vs Location(UTC" ++ (if 0 ≤ lo then "+" else "") ++ toString lo ++ ")"

/-- Timezone step of the part_003 revision (numeric offsets compared). -/
def stepTimezone (s : SpoofState) (loc : LocationData) : ℚ × List String :=
  match s.browserOffset with
  | none => (0, [])
  | some b =>
    if timezoneMismatchFlag b loc.latitude loc.longitude then
      (25, [tzMismatchIndicator s.browserTimezone b
              (getTimezoneFromCoords loc.latitude loc.longitude) s.numToString])
    else (0, [])

/-- Body of the part_003 `detectLocationSpoofing`, run once the guard has
established that a location fix is stored.  Each step is one `if`-guarded
score-and-push block of the method, in source order; the final verdict
reproduces the `spoofingScore >= 20 || ...` disjunction. -/
def detectLocationSpoofingBody (s : SpoofState) (loc : LocationData) : SpoofResult :=
  let s1 := stepResponse loc
  let s2 := stepAccuracy loc
  let s3 := stepRounded loc
  let s4 := stepTimezone s loc
  let s5 := stepSuspicious loc
  let sig := detectLocationSignatures (some loc) s.numToString
  let s7 := stepDevToolsState s
  let s8 := stepBehavioral s
  let spoofingScore := s1.1 + s2.1 + s3.1 + s4.1 + s5.1 + sig.1 + s7.1 + s8.1
  let spoofingIndicators := s1.2 ++ s2.2 ++ s3.2 ++ s4.2 ++ s5.2 ++ sig.2 ++ s7.2 ++ s8.2
  let criticalIndicators := checkCriticalSpoofingIndicators spoofingIndicators
  let hasTimezoneIssue := spoofingIndicators.any fun i => jsIncludes i ("Timezone mismatch")
  let hasDevToolsSignature := spoofingIndicators.any fun i =>
    jsIncludes i ("DevTools signature") || jsIncludes i ("DevTools default location") ||
      jsIncludes i ("accuracy exactly 150")
  { spoofingScore := spoofingScore
    spoofingIndicators := spoofingIndicators
    isLocationSpoofed := decide (spoofingScore ≥ 20) || s.locationSpoofedByDevTools ||
      s.locationSpoofedByBehavior || criticalIndicators || hasTimezoneIssue ||
      hasDevToolsSignature }

/-- The part_003 `detectLocationSpoofing`: throws when no location fix is
stored, otherwise returns the analysis. -/
def detectLocationSpoofing (s : SpoofState) : Except String SpoofResult :=
  match s.locationData with
  | none => .error ("Location data not available")
  | some loc => .ok (detectLocationSpoofingBody s loc)

end Part003

namespace Part004

/-- The `getTimezoneFromCoords(lat, lng)` of the part_004 revision: it
renders the longitude approximation as a `UTC±n` STRING (the latitude is
ignored by the code). -/
def getTimezoneFromCoords (lat lng : ℚ) : String :=
  let timezoneOffset : ℤ := round (lng / 15)
  let utcOffset : String :=
    if 0 ≤ timezoneOffset then "+" ++ toString timezoneOffset
    else toString timezoneOffset
  "UTC" ++ utcOffset

/-- The timezone comparison of the part_004 revision:
`Math.abs(browserOffset - locationOffset) > 1` where `locationOffset` is the
`UTC±n` string, so the subtraction coerces it with `ToNumber`, yields NaN,
and the `> 1` comparison is false. -/
def timezoneMismatchFlag (browserOffset lat lng : ℚ) : Bool :=
  match jsToNumber (getTimezoneFromCoords lat lng) with
  | none => false
  | some v => decide (|browserOffset - v| > 1)

/-- Indicator string of the part_004 timezone comparison.  In the template,
`locationOffset` is the `UTC±n` string, so the `locationOffset >= 0`
ternary compares a non-numeric string with 0 (NaN, hence false) and the
interpolation splices the string itself. -/
def tzMismatchIndicator (tzName : String) (b : ℚ) (lo : String)
    (numToString : ℚ → String) : String :=
  "Timezone mismatch: Browser(" ++ tzName ++ "/" ++
    (if 0 ≤ b then "+" else "") ++ numToString b ++
    ") vs Location(UTC" ++ lo ++ ")"

/-- Timezone step of the part_004 revision (string-valued
`getTimezoneFromCoords`, NaN comparison). -/
def stepTimezone (s : SpoofState) (loc : LocationData) : ℚ × List String :=
  match s.browserOffset with
  | none => (0, [])
  | some b =>
    if timezoneMismatchFlag b loc.latitude loc.longitude then
      (25, [tzMismatchIndicator s.browserTimezone b
              (getTimezoneFromCoords loc.latitude loc.longitude) s.numToString])
    else (0, [])

/-- Body of the part_004 `detectLocationSpoofing`; identical to the part_003
revision except for the timezone step. -/
def detectLocationSpoofingBody (s : SpoofState) (loc : LocationData) : SpoofResult :=
  let s1 := stepResponse loc
  let s2 := stepAccuracy loc
  let s3 := stepRounded loc
  let s4 := stepTimezone s loc
  let s5 := stepSuspicious loc
  let sig := detectLocationSignatures (some loc) s.numToString
  let s7 := stepDevToolsState s
  let s8 := stepBehavioral s
  let spoofingScore := s1.1 + s2.1 + s3.1 + s4.1 + s5.1 + sig.1 + s7.1 + s8.1
  let spoofingIndicators := s1.2 ++ s2.2 ++ s3.2 ++ s4.2 ++ s5.2 ++ sig.2 ++ s7.2 ++ s8.2
  let criticalIndicators := checkCriticalSpoofingIndicators spoofingIndicators
  let hasTimezoneIssue := spoofingIndicators.any fun i => jsIncludes i ("Timezone mismatch")
  let hasDevToolsSignature := spoofingIndicators.any fun i =>
    jsIncludes i ("DevTools signature") || jsIncludes i ("DevTools default location") ||
      jsIncludes i ("accuracy exactly 150")
  { spoofingScore := spoofingScore
    spoofingIndicators := spoofingIndicators
    isLocationSpoofed := decide (spoofingScore ≥ 20) || s.locationSpoofedByDevTools ||
      s.locationSpoofedByBehavior || criticalIndicators || hasTimezoneIssue ||
      hasDevToolsSignature }

/-- The part_004 `detectLocationSpoofing`. -/
def detectLocationSpoofing (s : SpoofState) : Except String SpoofResult :=
  match s.locationData with
  | none => .error ("Location data not available")
  | some loc => .ok (detectLocationSpoofingBody s loc)

/-- Screen fields read by `detectRemoteDesktop`. -/
structure ScreenData where
  width : ℤ
  height : ℤ
  colorDepth : ℤ
  pixelDepth : ℤ
deriving DecidableEq, Repr

/-- Window geometry fields read by `detectRemoteDesktop`. -/
structure WindowData where
  innerWidth : ℤ
  innerHeight : ℤ
  outerWidth : ℤ
  outerHeight : ℤ
deriving DecidableEq, Repr

/-- Result shape of `DeviceDataMaskingDetector.runChecks`
(`{score, indicators, isMasked}`; the diagnostic `details` payload is not
consumed by the aggregator's scoring).  `runChecks` reads only ambient
browser state and absorbs its probe failures internally, so its outcome is
supplied as environment data to `performFullAnalysis`. -/
structure MaskingResult where
  score : ℚ
  indicators : List String
  isMasked : Bool
deriving DecidableEq, Repr

/-- The three failure reasons the platform geolocation API can report to
`getCurrentPosition`'s error callback, with their platform-supplied
messages. -/
inductive PlatformGeoError where
  | permissionDenied (message : String)
  | positionUnavailable (message : String)
  | timeout (message : String)
deriving DecidableEq, Repr

/-- The `message` of a platform geolocation failure. -/
def PlatformGeoError.message : PlatformGeoError → String
  | .permissionDenied m => m
  | .positionUnavailable m => m
  | .timeout m => m

/-- Failure reasons of `analyzeLocation`: the API being absent (the code's
own `new Error('Geolocation not supported')`) or a platform failure. -/
inductive GeoError where
  | notSupported
  | platform (e : PlatformGeoError)
deriving DecidableEq, Repr

/-- The `message` observed by the `catch` block of `performFullAnalysis`. -/
def GeoError.message : GeoError → String
  | .notSupported => "Geolocation not supported"
  | .platform e => e.message

/-- A successful geolocation fix as delivered by the platform. -/
structure Position where
  latitude : ℚ
  longitude : ℚ
  accuracy : ℚ
  timestamp : ℚ
deriving DecidableEq, Repr

/-- The whole environment and instance state `performFullAnalysis` reads: the
browser surfaces consumed by `detectRemoteDesktop`, the geolocation outcome,
the device-masking result, and the `environmentData` slots that background
monitors may or may not have populated (`none` models an absent key, read
back through `|| 0` / `|| []` / `|| false` defaults). -/
structure FullEnv where
  userAgent : String
  platform : String
  languages : List String
  timezone : String
  screen : ScreenData
  window : WindowData
  maskingResult : MaskingResult
  geolocationPresent : Bool
  positionOutcome : Except PlatformGeoError Position
  fixResponseMs : ℚ
  devToolsDetected : Option Bool
  devToolsScore : Option ℚ
  devToolsIndicators : Option (List String)
  consoleOverridden : Bool
  consoleOverrideScore : Option ℚ
  consoleOverrides : Option (List String)
  extensionDetected : Bool
  extensionScore : Option ℚ
  extensionIndicators : Option (List String)
  vpnDetected : Bool
  vpnScore : Option ℚ
  vpnIndicators : Option (List String)
  detectedVpnProvider : Option String
  browserTimezone : String
  browserOffset : Option ℚ
  locationSpoofedByDevTools : Bool
  locationSpoofingScore : Option ℚ
  locationSpoofingIndicators : Option (List String)
  behavioralScore : ℚ
  behavioralIndicators : List String
  locationSpoofedByBehavior : Bool
  numToString : ℚ → String

/-- Result of the part_004 `detectRemoteDesktop` (the fields the rest of the
pipeline reads). -/
structure RdpData where
  rdpScore : ℚ
  rdpIndicators : List String
  isRemoteDesktop : Bool
deriving DecidableEq, Repr

/-- The `commonRdpResolutions` table. -/
def commonRdpResolutions : List (ℤ × ℤ) :=
  [(1024, 768), (1280, 1024), (1440, 900), (1920, 1080)]

/-- The part_004 `detectRemoteDesktop`: four `if`-guarded checks (common RDP
resolution, low colour depth, RDP user-agent markers, virtualization
user-agent markers), `isRemoteDesktop` at 20 points. -/
def detectRemoteDesktop (env : FullEnv) : RdpData :=
  let r1 : ℚ × List String :=
    if commonRdpResolutions.any (fun res =>
        decide (res.1 = env.screen.width ∧ res.2 = env.screen.height)) then
      (10, ["Common RDP resolution detected"])
    else (0, [])
  let r2 : ℚ × List String :=
    if env.screen.colorDepth < 24 then (15, ["Low color depth (typical of RDP)"])
    else (0, [])
  let r3 : ℚ × List String :=
    if jsIncludes env.userAgent ("RDP") || jsIncludes env.userAgent ("Remote") then
      (20, ["RDP indicator in user agent"])
    else (0, [])
  let r4 : ℚ × List String :=
    if jsIncludes env.userAgent ("VirtualBox") || jsIncludes env.userAgent ("VMware") ||
       jsIncludes env.userAgent ("QEMU") then
      (25, ["Virtualization detected"])
    else (0, [])
  let rdpScore := r1.1 + r2.1 + r3.1 + r4.1
  { rdpScore := rdpScore
    rdpIndicators := r1.2 ++ r2.2 ++ r3.2 ++ r4.2
    isRemoteDesktop := decide (rdpScore ≥ 20) }

/-- The `analyzeLocation` method: reject with `Geolocation not supported`
when the API is absent, otherwise resolve or reject with the platform
outcome, recording the response time. -/
def analyzeLocation (env : FullEnv) : Except GeoError LocationData :=
  if env.geolocationPresent then
    match env.positionOutcome with
    | .ok pos =>
      .ok { latitude := pos.latitude, longitude := pos.longitude,
            accuracy := pos.accuracy, timestamp := pos.timestamp,
            responseTime := env.fixResponseMs }
    | .error e => .error (.platform e)
  else .error .notSupported

/-- The detector state handed to `detectLocationSpoofing` once
`analyzeLocation` has stored its fix. -/
def spoofStateOf (env : FullEnv) (loc : LocationData) : SpoofState :=
  { locationData := some loc
    browserTimezone := env.browserTimezone
    browserOffset := env.browserOffset
    locationSpoofedByDevTools := env.locationSpoofedByDevTools
    locationSpoofingScore := env.locationSpoofingScore
    locationSpoofingIndicators := env.locationSpoofingIndicators
    behavioralScore := env.behavioralScore
    behavioralIndicators := env.behavioralIndicators
    locationSpoofedByBehavior := env.locationSpoofedByBehavior
    numToString := env.numToString }

/-- Model of `Number.prototype.toFixed(f)` on a nonnegative rational: pick the `n`
with `n / 10^f` nearest (larger on ties) and render with `f` fraction
digits. -/
def jsToFixedNonneg (f : ℕ) (x : ℚ) : String :=
  let n : ℤ := round (x * 10 ^ f)
  let s := toString n.toNat
  if f = 0 then s
  else
    let s :=
      if s.length < f + 1 then String.mk (List.replicate (f + 1 - s.length) '0') ++ s
      else s
    s.take (s.length - f) ++ "." ++ s.drop (s.length - f)

/-- Model of `Number.prototype.toFixed(f)`: negative inputs render as the sign
followed by the rendering of the negation. -/
def jsToFixed (f : ℕ) (x : ℚ) : String :=
  if x < 0 then "-" ++ jsToFixedNonneg f (-x) else jsToFixedNonneg f x

/-- The `location` section of the report. -/
structure LocationReport where
  coordinates : String
  latitude : ℚ
  longitude : ℚ
  accuracy : String
  responseTime : String
  isSpoofed : Bool
  spoofingScore : ℚ
  indicators : List String
deriving DecidableEq, Repr

/-- The `environment` section of the report. -/
structure EnvironmentReport where
  isRemoteDesktop : Bool
  rdpScore : ℚ
  indicators : List String
  platform : String
  resolution : String
  timezone : String
deriving DecidableEq, Repr

/-- The `devTools` / `extensions` / `deviceMasking` sections of the
report. -/
structure SectionReport where
  detected : Bool
  score : ℚ
  indicators : List String
deriving DecidableEq, Repr

/-- The `console` section of the report. -/
structure ConsoleReport where
  overridden : Bool
  score : ℚ
  indicators : List String
deriving DecidableEq, Repr

/-- The `vpn` section of the report. -/
structure VpnReport where
  detected : Bool
  score : ℚ
  indicators : List String
  provider : Option String
deriving DecidableEq, Repr

/-- The `overall` section of the report. -/
structure OverallReport where
  suspicionScore : ℚ
  riskLevel : String
  allIndicators : List String
deriving DecidableEq, Repr

/-- The full report returned by a successful `performFullAnalysis`. -/
structure Report where
  location : LocationReport
  environment : EnvironmentReport
  devTools : SectionReport
  console : ConsoleReport
  extensions : SectionReport
  deviceMasking : SectionReport
  vpn : VpnReport
  overall : OverallReport
deriving DecidableEq, Repr

/-- The part_004 `performFullAnalysis`: environment analysis, device-masking
analysis, the single geolocation fix, the spoofing analysis, then the
consolidated report; any failure in the `try` block is rethrown as one
wrapped `Analysis failed: …` error, so a failed fix yields no partial
report. -/
def performFullAnalysis (env : FullEnv) : Except String Report :=
  let envData := detectRemoteDesktop env
  let maskingResult := env.maskingResult
  match analyzeLocation env with
  | .error e => .error ("Analysis failed: " ++ e.message)
  | .ok loc =>
    match detectLocationSpoofing (spoofStateOf env loc) with
    | .error m => .error ("Analysis failed: " ++ m)
    | .ok locationAnalysis =>
      let totalSuspicion := envData.rdpScore + locationAnalysis.spoofingScore +
        env.devToolsScore.getD 0 + env.consoleOverrideScore.getD 0 +
        env.extensionScore.getD 0 + maskingResult.score + env.vpnScore.getD 0
      let allIndicators := locationAnalysis.spoofingIndicators ++ envData.rdpIndicators ++
        env.devToolsIndicators.getD [] ++ env.consoleOverrides.getD [] ++
        env.extensionIndicators.getD [] ++ maskingResult.indicators ++
        env.vpnIndicators.getD []
      .ok {
        location := {
          coordinates := jsToFixed 4 loc.latitude ++ ", " ++ jsToFixed 4 loc.longitude
          latitude := loc.latitude
          longitude := loc.longitude
          accuracy := jsToFixed 0 loc.accuracy ++ "m"
          responseTime := env.numToString loc.responseTime ++ "ms"
          isSpoofed := locationAnalysis.isLocationSpoofed
          spoofingScore := locationAnalysis.spoofingScore
          indicators := locationAnalysis.spoofingIndicators }
        environment := {
          isRemoteDesktop := envData.isRemoteDesktop
          rdpScore := envData.rdpScore
          indicators := envData.rdpIndicators
          platform := env.platform
          resolution := toString env.screen.width ++ "x" ++ toString env.screen.height
          timezone := env.timezone }
        devTools := {
          detected := env.devToolsDetected.getD false
          score := env.devToolsScore.getD 0
          indicators := env.devToolsIndicators.getD [] }
        console := {
          overridden := env.consoleOverridden
          score := env.consoleOverrideScore.getD 0
          indicators := env.consoleOverrides.getD [] }
        extensions := {
          detected := env.extensionDetected
          score := env.extensionScore.getD 0
          indicators := env.extensionIndicators.getD [] }
        deviceMasking := {
          detected := maskingResult.isMasked
          score := maskingResult.score
          indicators := maskingResult.indicators }
        vpn := {
          detected := env.vpnDetected
          score := env.vpnScore.getD 0
          indicators := env.vpnIndicators.getD []
          provider := env.detectedVpnProvider }
        overall := {
          suspicionScore := totalSuspicion
          riskLevel := getRiskLevel totalSuspicion
          allIndicators := allIndicators } }

end Part004

/-- Concrete fix used to exercise the critical-override path: accuracy
exactly 150, unremarkable coordinates, slow response. -/
def witnessLoc150 : LocationData :=
  { latitude := 26, longitude := 106, accuracy := 150, timestamp := 0,
    responseTime := 500 }

/-- Concrete detector state holding `witnessLoc150`, with every background
flag clear. -/
def witnessState150 : SpoofState :=
  { locationData := some witnessLoc150, browserTimezone := "Asia/Saigon",
    browserOffset := none, locationSpoofedByDevTools := false,
    locationSpoofingScore := none, locationSpoofingIndicators := none,
    behavioralScore := 0, behavioralIndicators := [],
    locationSpoofedByBehavior := false, numToString := fun _ => "" }

/-- Concrete fix at the Google-HQ DevTools default coordinates, with an
ordinary accuracy. -/
def witnessLocGoogleHQ : LocationData :=
  { latitude := 37.4224764, longitude := -122.0842499, accuracy := 20,
    timestamp := 0, responseTime := 500 }

/-- Concrete detector state holding `witnessLocGoogleHQ`. -/
def witnessStateGoogleHQ : SpoofState :=
  { locationData := some witnessLocGoogleHQ, browserTimezone := "Asia/Saigon",
    browserOffset := none, locationSpoofedByDevTools := false,
    locationSpoofingScore := none, locationSpoofingIndicators := none,
    behavioralScore := 0, behavioralIndicators := [],
    locationSpoofedByBehavior := false, numToString := fun _ => "" }

/-- Concrete full-analysis environment on a platform without a geolocation
API (every other surface quiet). -/
def witnessEnvNoGeo : Part004.FullEnv :=
  { userAgent := "Mozilla/5.0", platform := "Linux x86_64", languages := ["en-US"],
    timezone := "Asia/Saigon", screen := ⟨1920, 1200, 24, 24⟩,
    window := ⟨1920, 1100, 1920, 1200⟩, maskingResult := ⟨0, [], false⟩,
    geolocationPresent := false,
    positionOutcome := Except.error (Part004.PlatformGeoError.timeout ("Timeout expired")),
    fixResponseMs := 0, devToolsDetected := none, devToolsScore := none,
    devToolsIndicators := none, consoleOverridden := false,
    consoleOverrideScore := none, consoleOverrides := none,
    extensionDetected := false, extensionScore := none, extensionIndicators := none,
    vpnDetected := false, vpnScore := none, vpnIndicators := none,
    detectedVpnProvider := none, browserTimezone := "Asia/Saigon",
    browserOffset := none, locationSpoofedByDevTools := false,
    locationSpoofingScore := none, locationSpoofingIndicators := none,
    behavioralScore := 0, behavioralIndicators := [],
    locationSpoofedByBehavior := false, numToString := fun _ => "" }

end FraudDetector

namespace LocationBehaviorAnalyzer

/-- One entry of the analyzer's `locationHistory`: the fields
`analyzeLocationUpdate` stores from a watch callback (coordinates, accuracy
and the capture time in epoch milliseconds).  Coordinates are real numbers
because the haversine distance consumes them through trigonometry. -/
structure LocationPoint where
  latitude : ℝ
  longitude : ℝ
  accuracy : ℚ
  timestamp : ℚ

/-- The `toRad(degrees)` helper. -/
noncomputable def toRad (degrees : ℝ) : ℝ :=
  degrees * (Real.pi / 180)

/-- JavaScript `Math.atan2(y, x)` on non-NaN inputs. -/
noncomputable def atan2 (y x : ℝ) : ℝ :=
  if 0 < x then Real.arctan (y / x)
  else if x < 0 then
    (if 0 ≤ y then Real.arctan (y / x) + Real.pi else Real.arctan (y / x) - Real.pi)
  else if 0 < y then Real.pi / 2
  else if y < 0 then -(Real.pi / 2)
  else 0

/-- The `calculateDistance(lat1, lon1, lat2, lon2)` method: haversine with
Earth radius 6,371,000 m. -/
noncomputable def calculateDistance (lat1 lon1 lat2 lon2 : ℝ) : ℝ :=
  let R : ℝ := 6371000
  let dLat := toRad (lat2 - lat1)
  let dLon := toRad (lon2 - lon1)
  let a := Real.sin (dLat / 2) * Real.sin (dLat / 2) +
    Real.cos (toRad lat1) * Real.cos (toRad lat2) *
      Real.sin (dLon / 2) * Real.sin (dLon / 2)
  let c := 2 * atan2 (Real.sqrt a) (Real.sqrt (1 - a))
  R * c

/-- Distance of one consecutive pair in `detectInstantaneousJumps`. -/
noncomputable def pairDistance (prev current : LocationPoint) : ℝ :=
  calculateDistance prev.latitude prev.longitude current.latitude current.longitude

/-- Elapsed seconds of one consecutive pair: `(timestamps in ms) / 1000`. -/
noncomputable def pairTimeDiff (prev current : LocationPoint) : ℝ :=
  ((current.timestamp - prev.timestamp : ℚ) : ℝ) / 1000

/-- Speed of one consecutive pair in km/h: `distance / timeDiff * 3.6`. -/
noncomputable def pairSpeedKmh (prev current : LocationPoint) : ℝ :=
  pairDistance prev current / pairTimeDiff prev current * 3.6

/-- Model of `Number.prototype.toFixed(0)` on a real number (nearest integer, ties to
the larger magnitude-adjusted value; sign split off first, as in the
ECMAScript algorithm). -/
noncomputable def realToFixed0 (x : ℝ) : String :=
  if x < 0 then "-" ++ toString (round (-x)) else toString (round x)

/-- Indicator pushed for an impossible (>1000 km/h, >1 km) jump. -/
noncomputable def impossibleTravelIndicator (speedKmh distance : ℝ) : String :=
  "Impossible travel speed: " ++ realToFixed0 speedKmh ++ " km/h over " ++
    realToFixed0 distance ++ "m"

/-- Indicator pushed for a suspicious (>200 km/h, >500 m) jump. -/
noncomputable def suspiciousTravelIndicator (speedKmh distance : ℝ) : String :=
  "Suspicious travel speed: " ++ realToFixed0 speedKmh ++ " km/h over " ++
    realToFixed0 distance ++ "m"

/-- The loop of `detectInstantaneousJumps` from index 1 on: score each
consecutive pair `(prev, current)` and accumulate. -/
noncomputable def detectInstantaneousJumpsAux (prev : LocationPoint) :
    List LocationPoint → ℚ × List String
  | [] => (0, [])
  | current :: rest =>
    let distance := pairDistance prev current
    let speedKmh := pairSpeedKmh prev current
    let restResult := detectInstantaneousJumpsAux current rest
    if speedKmh > 1000 ∧ distance > 1000 then
      (60 + restResult.1, impossibleTravelIndicator speedKmh distance :: restResult.2)
    else if speedKmh > 200 ∧ distance > 500 then
      (40 + restResult.1, suspiciousTravelIndicator speedKmh distance :: restResult.2)
    else restResult

/-- The `detectInstantaneousJumps(indicators)` method over the stored
history (returned as the added score together with the pushed indicator
strings, in push order). -/
noncomputable def detectInstantaneousJumps (history : List LocationPoint) :
    ℚ × List String :=
  match history with
  | [] => (0, [])
  | first :: rest => detectInstantaneousJumpsAux first rest

/-- The `commonSpoofedValues` table of `detectStaticAccuracy`. -/
def commonSpoofedValues : List ℚ :=
  [10, 20, 50, 100, 150]

/-- The `detectStaticAccuracy(indicators)` method: with at least three fixes,
an accuracy value that never changes adds 20 points, and 30 more when that
constant value is a common spoofing-tool default.  `[...new Set(accuracies)]`
is modelled by `List.dedup`; only its length is consumed.  `toString` stands
for JavaScript's default number rendering in the pushed strings. -/
def detectStaticAccuracy (history : List LocationPoint) : ℚ × List String :=
  let accuracies := history.map (·.accuracy)
  if accuracies.length < 3 then (0, [])
  else
    let uniqueAccuracies := accuracies.dedup
    let s1 : ℚ × List String :=
      if uniqueAccuracies.length = 1 then
        (20, ["Static accuracy value: " ++ toString (accuracies.headD 0) ++
              "m (never changes)"])
      else (0, [])
    let s2 : ℚ × List String :=
      if accuracies.headD 0 ∈ commonSpoofedValues ∧ uniqueAccuracies.length = 1 then
        (30, ["Common spoofed accuracy value: " ++ toString (accuracies.headD 0) ++ "m"])
      else (0, [])
    (s1.1 + s2.1, s1.2 ++ s2.2)

/-- The analyzer state touched by `startLocationMonitoring` and
`stopLocationMonitoring`. -/
structure AnalyzerState where
  locationHistory : List LocationPoint
  watchId : Option ℕ
  monitoringActive : Bool

/-- The callback scheduled with `setTimeout` by `startLocationMonitoring`. -/
inductive TimerCall where
  | stopLocationMonitoringCall
deriving DecidableEq, Repr

/-- JavaScript truthiness of the stored `watchId` (`null` and `0` are
falsy). -/
def jsTruthyWatchId : Option ℕ → Bool
  | none => false
  | some n => decide (n ≠ 0)

/-- The `startLocationMonitoring()` method.  When the geolocation API is
absent or monitoring is already active it does nothing; otherwise it flips
`monitoringActive`, starts the position watch (the platform assigns the
watch id), and schedules `stopLocationMonitoring` on a timer — with delay
1 ms, although the adjacent comment says two minutes.  The returned list
holds the scheduled timeouts as (delay in ms, callback). -/
def startLocationMonitoring (geolocationPresent : Bool) (assignedWatchId : ℕ)
    (st : AnalyzerState) : AnalyzerState × List (ℕ × TimerCall) :=
  if !geolocationPresent || st.monitoringActive then (st, [])
  else
    ({ st with monitoringActive := true, watchId := some assignedWatchId },
     [(1, TimerCall.stopLocationMonitoringCall)])

/-- The `stopLocationMonitoring()` method: with a truthy watch id, clear the
platform watch, null the id and drop `monitoringActive`. -/
def stopLocationMonitoring (st : AnalyzerState) : AnalyzerState :=
  if jsTruthyWatchId st.watchId then
    { st with watchId := none, monitoringActive := false }
  else st

/-- Longitude (in degrees) of the point `d` metres east of the origin along
the equator — the test-input constructor used by the concrete jump
scenarios. -/
noncomputable def lonFor (d : ℝ) : ℝ :=
  d / 6371000 * (180 / Real.pi)

/-- Concrete fix at the origin. -/
noncomputable def jumpA : LocationPoint :=
  ⟨0, 0, 50, 0⟩

/-- Concrete fix 2,000,000 m east of `jumpA`, 5 seconds later. -/
noncomputable def jumpB2000km : LocationPoint :=
  ⟨0, lonFor 2000000, 50, 5000⟩

/-- Concrete fix 10 m east of `jumpA`, 5 seconds later. -/
noncomputable def jumpB10m : LocationPoint :=
  ⟨0, lonFor 10, 50, 5000⟩

/-- Concrete fix 2,000 m east of `jumpA`, 7.2 seconds later — an exactly
1000 km/h pair. -/
noncomputable def jumpBedge : LocationPoint :=
  ⟨0, lonFor 2000, 50, 7200⟩

/-- Concrete three-fix history with constant accuracy 50. -/
noncomputable def staticHistory50 : List LocationPoint :=
  [⟨0, 0, 50, 0⟩, ⟨0, 0, 50, 1000⟩, ⟨0, 0, 50, 2000⟩]

/-- Concrete three-fix history with varying accuracies 12, 18, 9. -/
noncomputable def varyingHistory : List LocationPoint :=
  [⟨0, 0, 12, 0⟩, ⟨0, 0, 18, 1000⟩, ⟨0, 0, 9, 2000⟩]

/-- Concrete inactive analyzer state. -/
noncomputable def idleAnalyzerState : AnalyzerState :=
  { locationHistory := [], watchId := none, monitoringActive := false }

end LocationBehaviorAnalyzer

namespace ExtensionDetector

/-- The uniform `{score, indicators, detected}` result shape returned by the
detector methods. -/
structure DetectionResult where
  score : ℚ
  indicators : List String
  detected : Bool
deriving DecidableEq, Repr

/-- The browser-state probes read by
`ExtensionDetector.detectBasicArtifacts`: presence of the sniffed global
objects, DOM markers and attributes, the source text that `toString()`
returns for the sensitive APIs, and the count of generic extension marker
elements. -/
structure ArtifactsEnv where
  windowVytal : Bool
  domDataVytal : Bool
  docVytalAttr : Bool
  windowLocationGuard : Bool
  geoGetCurrentPositionSource : String
  windowChangeLocation : Bool
  domDataChangeLocation : Bool
  windowSurfshark : Bool
  domDataSurfshark : Bool
  docSurfsharkVpnAttr : Bool
  extensionElementsCount : ℕ
  rtcPeerConnectionPresent : Bool
  createDataChannelSource : String

/-- The `detectBasicArtifacts()` method: seven `if`-guarded probes, each
adding points and one indicator.  The first six branches also set
`detected = true`; the seventh (WebRTC-modification) branch adds its 20
points and indicator WITHOUT setting `detected`, exactly as in the source —
so `detected` is the disjunction of the first six conditions only. -/
def detectBasicArtifacts (env : ArtifactsEnv) : DetectionResult :=
  let b1 := env.windowVytal || env.domDataVytal || env.docVytalAttr
  let b2 := env.windowLocationGuard ||
    jsIncludes env.geoGetCurrentPositionSource ("locationguard")
  let b3 := env.windowChangeLocation || env.domDataChangeLocation
  let b4 := env.windowSurfshark || env.domDataSurfshark || env.docSurfsharkVpnAttr
  let b5 := decide (env.extensionElementsCount > 0)
  let b6 := decide (env.geoGetCurrentPositionSource.length > 100)
  let b7 := env.rtcPeerConnectionPresent &&
    !(jsIncludes env.createDataChannelSource ("native"))
  let c1 : ℚ × List String := if b1 then (40, ["Vytal extension detected"]) else (0, [])
  let c2 : ℚ × List String :=
    if b2 then (35, ["Location Guard extension detected"]) else (0, [])
  let c3 : ℚ × List String :=
    if b3 then (35, ["Change Location extension detected"]) else (0, [])
  let c4 : ℚ × List String :=
    if b4 then (30, ["SurfShark extension detected"]) else (0, [])
  let c5 : ℚ × List String :=
    if b5 then (20, ["Generic location spoofing extension detected"]) else (0, [])
  let c6 : ℚ × List String :=
    if b6 then (25, ["Geolocation API appears to be modified"]) else (0, [])
  let c7 : ℚ × List String :=
    if b7 then (20, ["WebRTC modifications detected (possible VPN)"]) else (0, [])
  { score := c1.1 + c2.1 + c3.1 + c4.1 + c5.1 + c6.1 + c7.1
    indicators := c1.2 ++ c2.2 ++ c3.2 ++ c4.2 ++ c5.2 ++ c6.2 ++ c7.2
    detected := b1 || b2 || b3 || b4 || b5 || b6 }

/-- Concrete probe environment in which only the WebRTC-modification check
fires: `RTCPeerConnection` exists and `createDataChannel`'s source lacks the
`native` marker, while every other probe is quiet. -/
def webrtcOnlyEnv : ArtifactsEnv :=
  { windowVytal := false, domDataVytal := false, docVytalAttr := false,
    windowLocationGuard := false,
    geoGetCurrentPositionSource := "[native code]",
    windowChangeLocation := false, domDataChangeLocation := false,
    windowSurfshark := false, domDataSurfshark := false,
    docSurfsharkVpnAttr := false, extensionElementsCount := 0,
    rtcPeerConnectionPresent := true,
    createDataChannelSource := "function createDataChannel, modified by extension" }

end ExtensionDetector

end Fraudinator

open Fraudinator FraudDetector LocationBehaviorAnalyzer ExtensionDetector

/-- Claim C3: `getRiskLevel` is a pure step function of the total suspicion
score: scores below 20 map to LOW, scores in [20, 40) to MEDIUM, scores in
[40, 60) to HIGH and scores of 60 or more to CRITICAL. -/
theorem getRiskLevel_step_function :
    ∀ score : ℚ,
      (score < 20 → getRiskLevel score = "LOW") ∧
      (20 ≤ score → score < 40 → getRiskLevel score = "MEDIUM") ∧
      (40 ≤ score → score < 60 → getRiskLevel score = "HIGH") ∧
      (60 ≤ score → getRiskLevel score = "CRITICAL") := by
  intro score
  unfold getRiskLevel
  refine ⟨fun h => ?_, fun h1 h2 => ?_, fun h1 h2 => ?_, fun h => ?_⟩
  · rw [if_pos h]
  · rw [if_neg (by linarith), if_pos h2]
  · rw [if_neg (by linarith), if_neg (by linarith), if_pos h2]
  · rw [if_neg (by linarith), if_neg (by linarith), if_neg (by linarith)]

/-- Helper: one step of the `forEach` accumulation. -/
theorem forEachAdd_cons {α : Type} (p : α → Bool) (pts : ℚ) (mk : α → String)
    (c : α) (t : List α) (acc : ℚ × List String) :
    forEachAdd p pts mk (c :: t) acc =
      forEachAdd p pts mk t (if p c = true then (acc.1 + pts, acc.2 ++ [mk c]) else acc) := by
  unfold forEachAdd
  rw [List.foldl_cons]

/-- Helper: the `forEach` accumulator never decreases the score when the
per-hit contribution is nonnegative. -/
theorem forEachAdd_score_mono {α : Type} (p : α → Bool) (pts : ℚ) (hpts : 0 ≤ pts)
    (mk : α → String) (l : List α) (acc : ℚ × List String) :
    acc.1 ≤ (forEachAdd p pts mk l acc).1 := by
  induction l generalizing acc with
  | nil => exact le_refl _
  | cons c t ih =>
    rw [forEachAdd_cons]
    by_cases hc : p c = true
    · rw [if_pos hc]
      refine le_trans ?_ (ih _)
      show acc.1 ≤ acc.1 + pts
      linarith
    · rw [if_neg hc]
      exact ih _

/-- Helper: the `forEach` accumulator preserves previously pushed
indicators. -/
theorem forEachAdd_mem_mono {α : Type} (p : α → Bool) (pts : ℚ)
    (mk : α → String) (l : List α) (acc : ℚ × List String) (x : String)
    (hx : x ∈ acc.2) : x ∈ (forEachAdd p pts mk l acc).2 := by
  induction l generalizing acc with
  | nil => exact hx
  | cons c t ih =>
    rw [forEachAdd_cons]
    by_cases hc : p c = true
    · rw [if_pos hc]
      refine ih _ ?_
      show x ∈ acc.2 ++ [mk c]
      exact List.mem_append.mpr (Or.inl hx)
    · rw [if_neg hc]
      exact ih _ hx

/-- Helper: a matching table entry really pushes its indicator. -/
theorem forEachAdd_mem_of_hit {α : Type} (p : α → Bool) (pts : ℚ)
    (mk : α → String) (l : List α) (acc : ℚ × List String) (c : α)
    (hc : c ∈ l) (hp : p c = true) : mk c ∈ (forEachAdd p pts mk l acc).2 := by
  induction l generalizing acc with
  | nil => cases hc
  | cons d t ih =>
    rw [forEachAdd_cons]
    rcases List.mem_cons.mp hc with rfl | hct
    · rw [if_pos hp]
      refine forEachAdd_mem_mono _ _ _ _ _ _ ?_
      show mk c ∈ acc.2 ++ [mk c]
      exact List.mem_append.mpr (Or.inr (by simp))
    · by_cases hd : p d = true
      · rw [if_pos hd]
        exact ih _ hct
      · rw [if_neg hd]
        exact ih _ hct

/-- Helper: a matching table entry contributes at least its points. -/
theorem forEachAdd_score_of_hit {α : Type} (p : α → Bool) (pts : ℚ) (hpts : 0 ≤ pts)
    (mk : α → String) (l : List α) (acc : ℚ × List String) (c : α)
    (hc : c ∈ l) (hp : p c = true) : acc.1 + pts ≤ (forEachAdd p pts mk l acc).1 := by
  induction l generalizing acc with
  | nil => cases hc
  | cons d t ih =>
    rw [forEachAdd_cons]
    rcases List.mem_cons.mp hc with rfl | hct
    · rw [if_pos hp]
      exact forEachAdd_score_mono _ _ hpts _ _ _
    · by_cases hd : p d = true
      · rw [if_pos hd]
        refine le_trans ?_ (ih _ hct)
        show acc.1 + pts ≤ acc.1 + pts + pts
        linarith
      · rw [if_neg hd]
        exact ih _ hct

/-- Helper: `detectLocationSignatures` on a present fix is the composition of its
four stages. -/
theorem detectLocationSignatures_eq (loc : LocationData) (f : ℚ → String) :
    detectLocationSignatures (some loc) f =
      forEachAdd (sigEmP loc) 40
        (fun c => "Emulator coordinates detected: " ++ c.name) emulatorCoords
        (sigPrec f loc
          (forEachAdd (sigDevP loc) 60
            (fun c => "DevTools default location detected: " ++ c.name)
            devToolsDefaults (sigAcc0 loc))) := rfl

/-- Helper: the precision stage never decreases the score. -/
theorem sigPrec_score_mono (f : ℚ → String) (loc : LocationData)
    (acc : ℚ × List String) : acc.1 ≤ (sigPrec f loc acc).1 := by
  unfold sigPrec
  split
  · show acc.1 ≤ acc.1 + 30
    linarith
  · exact le_refl _

/-- Helper: the precision stage preserves pushed indicators. -/
theorem sigPrec_mem_mono (f : ℚ → String) (loc : LocationData)
    (acc : ℚ × List String) (x : String) (hx : x ∈ acc.2) :
    x ∈ (sigPrec f loc acc).2 := by
  unfold sigPrec
  split
  · show x ∈ acc.2 ++ ["Unrealistic coordinate precision detected"]
    exact List.mem_append.mpr (Or.inl hx)
  · exact hx

/-- Helper: the accuracy stage starts from a nonnegative score. -/
theorem sigAcc0_score_nonneg (loc : LocationData) : 0 ≤ (sigAcc0 loc).1 := by
  unfold sigAcc0
  split
  · norm_num
  · norm_num

/-- Helper: the accuracy-exactly-150 signature contributes 50 points and its
indicator string. -/
theorem detectLocationSignatures_accuracy150 (loc : LocationData)
    (f : ℚ → String) (h : loc.accuracy = 150) :
    50 ≤ (detectLocationSignatures (some loc) f).1 ∧
      "DevTools signature: accuracy exactly 150m detected" ∈
        (detectLocationSignatures (some loc) f).2 := by
  rw [detectLocationSignatures_eq]
  constructor
  · refine le_trans ?_ (forEachAdd_score_mono _ _ (by norm_num) _ _ _)
    refine le_trans ?_ (sigPrec_score_mono _ _ _)
    refine le_trans ?_ (forEachAdd_score_mono _ _ (by norm_num) _ _ _)
    simp [sigAcc0, h]
  · refine forEachAdd_mem_mono _ _ _ _ _ _ ?_
    refine sigPrec_mem_mono _ _ _ _ ?_
    refine forEachAdd_mem_mono _ _ _ _ _ _ ?_
    simp [sigAcc0, h]

/-- Helper: a DevTools default coordinate within 0.0001° contributes 60
points and its indicator string. -/
theorem detectLocationSignatures_devtools_default (loc : LocationData)
    (f : ℚ → String) (c : NamedCoord) (hc : c ∈ devToolsDefaults)
    (hlat : |loc.latitude - c.lat| < 0.0001) (hlng : |loc.longitude - c.lng| < 0.0001) :
    60 ≤ (detectLocationSignatures (some loc) f).1 ∧
      ("DevTools default location detected: " ++ c.name) ∈
        (detectLocationSignatures (some loc) f).2 := by
  have hp : sigDevP loc c = true := by
    simp only [sigDevP, decide_eq_true_eq]
    exact ⟨hlat, hlng⟩
  rw [detectLocationSignatures_eq]
  constructor
  · refine le_trans ?_ (forEachAdd_score_mono _ _ (by norm_num) _ _ _)
    refine le_trans ?_ (sigPrec_score_mono _ _ _)
    have hhit := forEachAdd_score_of_hit (sigDevP loc) 60 (by norm_num)
      (fun c => "DevTools default location detected: " ++ c.name)
      devToolsDefaults (sigAcc0 loc) c hc hp
    have h0 := sigAcc0_score_nonneg loc
    linarith
  · refine forEachAdd_mem_mono _ _ _ _ _ _ ?_
    refine sigPrec_mem_mono _ _ _ _ ?_
    exact forEachAdd_mem_of_hit _ _ _ _ _ c hc hp

/-- Helper: the verdict disjunction of the part_003 body, in terms of its own
score and indicator fields. -/
theorem part003_body_isLocationSpoofed (s : SpoofState) (loc : LocationData) :
    (Part003.detectLocationSpoofingBody s loc).isLocationSpoofed =
      (decide ((Part003.detectLocationSpoofingBody s loc).spoofingScore ≥ 20) ||
       s.locationSpoofedByDevTools || s.locationSpoofedByBehavior ||
       checkCriticalSpoofingIndicators
         (Part003.detectLocationSpoofingBody s loc).spoofingIndicators ||
       ((Part003.detectLocationSpoofingBody s loc).spoofingIndicators.any fun i =>
          jsIncludes i ("Timezone mismatch")) ||
       ((Part003.detectLocationSpoofingBody s loc).spoofingIndicators.any fun i =>
          jsIncludes i ("DevTools signature") || jsIncludes i ("DevTools default location") ||
            jsIncludes i ("accuracy exactly 150"))) := rfl

/-- Helper: the indicator list of the part_003 body is the concatenation of
its steps, in source order. -/
theorem part003_body_spoofingIndicators (s : SpoofState) (loc : LocationData) :
    (Part003.detectLocationSpoofingBody s loc).spoofingIndicators =
      (stepResponse loc).2 ++ (stepAccuracy loc).2 ++ (stepRounded loc).2 ++
      (Part003.stepTimezone s loc).2 ++ (stepSuspicious loc).2 ++
      (detectLocationSignatures (some loc) s.numToString).2 ++
      (stepDevToolsState s).2 ++ (stepBehavioral s).2 := rfl

/-- Helper: every indicator pushed by the signature check ends up in the
part_003 analysis result. -/
theorem part003_body_mem_of_sig (s : SpoofState) (loc : LocationData) (x : String)
    (hx : x ∈ (detectLocationSignatures (some loc) s.numToString).2) :
    x ∈ (Part003.detectLocationSpoofingBody s loc).spoofingIndicators := by
  rw [part003_body_spoofingIndicators]
  simp only [List.mem_append]
  tauto

/-- Claim C1: whenever any critical-override indicator (DevTools signature,
DevTools default location, timezone mismatch, accuracy exactly 150,
null-island or emulator coordinates — the `criticalPatterns` table) is
present among the accumulated spoofing indicator strings, the result of
`detectLocationSpoofing` has `isLocationSpoofed = true`, regardless of
whether the numeric `spoofingScore` reaches the additive 20-point
threshold. -/
theorem critical_override_forces_spoofed :
    ∀ (s : SpoofState) (r : SpoofResult),
      Part003.detectLocationSpoofing s = .ok r →
      checkCriticalSpoofingIndicators r.spoofingIndicators = true →
      r.isLocationSpoofed = true := by
  intro s r hok hcrit
  cases hld : s.locationData with
  | none =>
    unfold Part003.detectLocationSpoofing at hok
    rw [hld] at hok
    cases hok
  | some loc =>
    unfold Part003.detectLocationSpoofing at hok
    rw [hld] at hok
    have hr : Part003.detectLocationSpoofingBody s loc = r := Except.ok.inj hok
    subst hr
    rw [part003_body_isLocationSpoofed, hcrit]
    simp

/-- Claim C1, witness: with a stored fix of accuracy exactly 150 and every
other flag clear, a critical indicator is accumulated and the verdict is
spoofed. -/
theorem critical_override_forces_spoofed_witness :
    (Part003.detectLocationSpoofingBody witnessState150 witnessLoc150).isLocationSpoofed
      = true :=
  critical_override_forces_spoofed witnessState150
    (Part003.detectLocationSpoofingBody witnessState150 witnessLoc150) rfl
    (by
      apply List.any_eq_true.mpr
      refine ⟨"DevTools signature: accuracy exactly 150m detected",
        part003_body_mem_of_sig _ _ _
          (detectLocationSignatures_accuracy150 witnessLoc150
            witnessState150.numToString rfl).2, ?_⟩
      decide)

/-- Claim C5: a current fix whose accuracy is exactly 150, or whose latitude
and longitude both lie within 0.0001° of a DevTools default coordinate set,
makes `detectLocationSignatures` add its fixed penalty (at least 50 points)
and forces `isLocationSpoofed = true` in the resulting analysis, regardless
of any other score contribution. -/
theorem signature_overrides_force_spoofed :
    ∀ (s : SpoofState) (loc : LocationData),
      s.locationData = some loc →
      (loc.accuracy = 150 ∨
        ∃ c ∈ devToolsDefaults,
          |loc.latitude - c.lat| < 0.0001 ∧ |loc.longitude - c.lng| < 0.0001) →
      50 ≤ (detectLocationSignatures (some loc) s.numToString).1 ∧
      ∃ r, Part003.detectLocationSpoofing s = .ok r ∧ r.isLocationSpoofed = true := by
  intro s loc hld h
  have hok : Part003.detectLocationSpoofing s =
      .ok (Part003.detectLocationSpoofingBody s loc) := by
    unfold Part003.detectLocationSpoofing
    rw [hld]
  obtain ⟨hscore, x, hx, hpx⟩ :
      50 ≤ (detectLocationSignatures (some loc) s.numToString).1 ∧
      ∃ x, x ∈ (detectLocationSignatures (some loc) s.numToString).2 ∧
        (jsIncludes x ("DevTools signature") || jsIncludes x ("DevTools default location") ||
          jsIncludes x ("accuracy exactly 150")) = true := by
    rcases h with hacc | ⟨c, hc, hlat, hlng⟩
    · obtain ⟨h1, h2⟩ := detectLocationSignatures_accuracy150 loc s.numToString hacc
      exact ⟨h1, _, h2, by decide⟩
    · obtain ⟨h1, h2⟩ := detectLocationSignatures_devtools_default loc s.numToString c hc hlat hlng
      refine ⟨by linarith, _, h2, ?_⟩
      fin_cases hc <;> decide
  refine ⟨hscore, Part003.detectLocationSpoofingBody s loc, hok, ?_⟩
  rw [part003_body_isLocationSpoofed]
  have hdev : ((Part003.detectLocationSpoofingBody s loc).spoofingIndicators.any fun i =>
      jsIncludes i ("DevTools signature") || jsIncludes i ("DevTools default location") ||
        jsIncludes i ("accuracy exactly 150")) = true :=
    List.any_eq_true.mpr ⟨x, part003_body_mem_of_sig s loc x hx, hpx⟩
  rw [hdev]
  simp

/-- Claim C5, witness: a fix at the Google-HQ DevTools default coordinates
(accuracy 20) earns the signature penalty and a spoofed verdict. -/
theorem signature_overrides_force_spoofed_witness :
    50 ≤ (detectLocationSignatures (some witnessLocGoogleHQ)
            witnessStateGoogleHQ.numToString).1 ∧
    ∃ r, Part003.detectLocationSpoofing witnessStateGoogleHQ = .ok r ∧
      r.isLocationSpoofed = true :=
  signature_overrides_force_spoofed witnessStateGoogleHQ witnessLocGoogleHQ rfl
    (Or.inr ⟨⟨37.4224764, -122.0842499, "Google HQ (DevTools default)"⟩,
      by simp [devToolsDefaults],
      by norm_num [witnessLocGoogleHQ],
      by norm_num [witnessLocGoogleHQ]⟩)

/-- Claim C7: `performFullAnalysis` is all-or-nothing.  Whenever the
geolocation fix cannot be obtained (API absent, permission denied, position
unavailable or timeout), it fails with the single wrapped `Analysis failed:`
condition carrying the underlying message, and returns no report; whenever
the fix succeeds it returns the full report structure built from that fix. -/
theorem performFullAnalysis_all_or_nothing :
    ∀ env : Part004.FullEnv,
      (∀ e, Part004.analyzeLocation env = .error e →
        Part004.performFullAnalysis env =
          .error ("Analysis failed: " ++ e.message)) ∧
      (∀ loc, Part004.analyzeLocation env = .ok loc →
        ∃ r : Part004.Report, Part004.performFullAnalysis env = .ok r ∧
          r.location.latitude = loc.latitude ∧
          r.location.longitude = loc.longitude ∧
          r.overall.riskLevel = getRiskLevel r.overall.suspicionScore) := by
  intro env
  constructor
  · intro e he
    unfold Part004.performFullAnalysis
    rw [he]
  · intro loc hl
    unfold Part004.performFullAnalysis
    rw [hl]
    exact ⟨_, rfl, rfl, rfl, rfl⟩

/-- Claim C7, witness: with the geolocation API absent, the analysis fails
with exactly the wrapped condition and nothing else is returned. -/
theorem performFullAnalysis_all_or_nothing_witness :
    Part004.performFullAnalysis witnessEnvNoGeo =
      .error ("Analysis failed: " ++ Part004.GeoError.notSupported.message) :=
  (performFullAnalysis_all_or_nothing witnessEnvNoGeo).1 Part004.GeoError.notSupported rfl

/-- Helper: JavaScript `ToNumber` of any `UTC`-prefixed label is NaN
(modelled `none`), because the first character is not a sign or digit. -/
theorem jsToNumber_utc_prefixed (s : String) : jsToNumber ("UTC" ++ s) = none := by
  have hdata : ("UTC" ++ s).toList = 'U' :: 'T' :: 'C' :: s.toList := by
    simp [String.toList, String.data_append]
  simp [jsToNumber, hdata, List.takeWhile, List.dropWhile, Char.isDigit]

/-- Claim C2: the numeric-offset timezone-consistency check of the part_003
revision behaves as documented on the three scenario inputs (browser offsets
+7 for `Asia/Saigon` and −5 for `America/New_York` at the fixed winter
reference instant, per the repository's own fix summary), while the part_004
revision of `getTimezoneFromCoords` returns the STRING `UTC±n`, whose
subtraction from the numeric browser offset is NaN — so that revision's
mismatch flag is false for every input, including the Asia/Saigon browser
with a New York fix, where the claim requires `true`. -/
theorem timezone_consistency_check_evaluations :
    (∀ b lat lng : ℚ, Part003.timezoneMismatchFlag b lat lng = true ↔
      |b - (round (lng / 15) : ℤ)| > 1) ∧
    Part003.timezoneMismatchFlag 7 10.7769 106.63 = false ∧
    Part003.timezoneMismatchFlag 7 40.7128 (-74.006) = true ∧
    Part003.timezoneMismatchFlag (-5) 10.7769 106.63 = true ∧
    (∀ b lat lng : ℚ, Part004.timezoneMismatchFlag b lat lng = false) := by
  refine ⟨fun b lat lng => ?_, ?_, ?_, ?_, fun b lat lng => ?_⟩
  · simp [Part003.timezoneMismatchFlag, Part003.getTimezoneFromCoords]
  · norm_num [Part003.timezoneMismatchFlag, Part003.getTimezoneFromCoords, round_eq]
  · norm_num [Part003.timezoneMismatchFlag, Part003.getTimezoneFromCoords, round_eq]
  · norm_num [Part003.timezoneMismatchFlag, Part003.getTimezoneFromCoords, round_eq]
  · unfold Part004.timezoneMismatchFlag Part004.getTimezoneFromCoords
    rw [jsToNumber_utc_prefixed]

/-- Helper: squared sines of half-angles are symmetric in the difference. -/
theorem sin_half_sq_swap (x y : ℝ) :
    Real.sin (toRad (x - y) / 2) * Real.sin (toRad (x - y) / 2) =
      Real.sin (toRad (y - x) / 2) * Real.sin (toRad (y - x) / 2) := by
  have h : toRad (x - y) / 2 = -(toRad (y - x) / 2) := by
    unfold toRad
    ring
  rw [h, Real.sin_neg]
  ring

/-- Helper: the same symmetry under an extra left factor (the grouping used
inside the haversine `a` term). -/
theorem sin_half_sq_swap_mul (c x y : ℝ) :
    c * Real.sin (toRad (x - y) / 2) * Real.sin (toRad (x - y) / 2) =
      c * Real.sin (toRad (y - x) / 2) * Real.sin (toRad (y - x) / 2) := by
  have h : toRad (x - y) / 2 = -(toRad (y - x) / 2) := by
    unfold toRad
    ring
  rw [h, Real.sin_neg]
  ring

/-- Claim C9: the great-circle distance (haversine, Earth radius
6,371,000 m) is zero on every pair of identical coordinates and symmetric
under swapping the two coordinate pairs. -/
theorem calculateDistance_zero_and_symmetric :
    (∀ lat lon : ℝ, calculateDistance lat lon lat lon = 0) ∧
    (∀ lat1 lon1 lat2 lon2 : ℝ,
      calculateDistance lat1 lon1 lat2 lon2 = calculateDistance lat2 lon2 lat1 lon1) := by
  constructor
  · intro lat lon
    unfold calculateDistance
    simp only [sub_self]
    have h0 : toRad 0 = 0 := by
      unfold toRad
      ring
    rw [h0]
    simp only [zero_div, Real.sin_zero, mul_zero, zero_mul, add_zero, zero_add,
      Real.sqrt_zero, sub_zero, Real.sqrt_one]
    unfold atan2
    rw [if_pos (by norm_num : (0 : ℝ) < 1)]
    simp [Real.arctan_zero]
  · intro lat1 lon1 lat2 lon2
    unfold calculateDistance
    simp only []
    rw [sin_half_sq_swap lat2 lat1,
      sin_half_sq_swap_mul (Real.cos (toRad lat1) * Real.cos (toRad lat2)) lon2 lon1,
      mul_comm (Real.cos (toRad lat1)) (Real.cos (toRad lat2))]

/-- Helper: along the equator, the haversine distance is exactly the Earth
radius times the longitude difference in radians (for angles inside one
half-turn). -/
theorem calculateDistance_equator (l : ℝ) (h0 : 0 ≤ toRad l) (hl : toRad l < Real.pi) :
    calculateDistance 0 0 0 l = 6371000 * toRad l := by
  unfold calculateDistance
  have hsub : (0 : ℝ) - 0 = 0 := by norm_num
  have hrad0 : toRad 0 = 0 := by
    unfold toRad
    ring
  have hl0 : l - (0 : ℝ) = l := by ring
  rw [hsub, hl0, hrad0]
  simp only [zero_div, Real.sin_zero, mul_zero, zero_mul, zero_add, add_zero,
    Real.cos_zero, one_mul]
  have hπ := Real.pi_pos
  have hθ2a : 0 ≤ toRad l / 2 := by linarith
  have hθ2b : toRad l / 2 < Real.pi / 2 := by linarith
  have hsin : 0 ≤ Real.sin (toRad l / 2) :=
    Real.sin_nonneg_of_nonneg_of_le_pi hθ2a (by linarith)
  have hcos : 0 < Real.cos (toRad l / 2) :=
    Real.cos_pos_of_mem_Ioo ⟨by linarith, hθ2b⟩
  have h1 : Real.sqrt (Real.sin (toRad l / 2) * Real.sin (toRad l / 2)) =
      Real.sin (toRad l / 2) := Real.sqrt_mul_self hsin
  have h2 : 1 - Real.sin (toRad l / 2) * Real.sin (toRad l / 2) =
      Real.cos (toRad l / 2) * Real.cos (toRad l / 2) := by
    have hpyth := Real.sin_sq_add_cos_sq (toRad l / 2)
    nlinarith [hpyth]
  have h3 : Real.sqrt (Real.cos (toRad l / 2) * Real.cos (toRad l / 2)) =
      Real.cos (toRad l / 2) := Real.sqrt_mul_self (le_of_lt hcos)
  rw [h1, h2, h3]
  unfold atan2
  rw [if_pos hcos, ← Real.tan_eq_sin_div_cos,
    Real.arctan_tan (by linarith) hθ2b]
  ring

/-- Helper: `toRad (lonFor d)` is exactly `d / 6371000` radians. -/
theorem toRad_lonFor (d : ℝ) : toRad (lonFor d) = d / 6371000 := by
  unfold toRad lonFor
  have hπ : Real.pi ≠ 0 := Real.pi_ne_zero
  field_simp
  ring

/-- Helper: the haversine distance from the origin to `lonFor d` along the
equator is exactly `d` metres, for `0 ≤ d` below half the circumference. -/
theorem calculateDistance_lonFor (d : ℝ) (h0 : 0 ≤ d) (hd : d / 6371000 < Real.pi) :
    calculateDistance 0 0 0 (lonFor d) = d := by
  rw [calculateDistance_equator (lonFor d)
      (by rw [toRad_lonFor]; positivity)
      (by rw [toRad_lonFor]; exact hd),
    toRad_lonFor]
  field_simp

/-- Helper: `toFixed(0)` of a natural-number-valued real. -/
theorem realToFixed0_natCast (n : ℕ) : realToFixed0 ((n : ℝ)) = toString ((n : ℤ)) := by
  unfold realToFixed0
  rw [if_neg (not_lt.mpr (Nat.cast_nonneg n)), round_natCast]

/-- Helper: concrete `toFixed(0)` renderings used by the jump scenarios. -/
theorem realToFixed0_concrete :
    realToFixed0 (1000 : ℝ) = "1000" ∧ realToFixed0 (2000 : ℝ) = "2000" ∧
    realToFixed0 (1440000 : ℝ) = "1440000" ∧ realToFixed0 (2000000 : ℝ) = "2000000" := by
  refine ⟨?_, ?_, ?_, ?_⟩
  · rw [show (1000 : ℝ) = ((1000 : ℕ) : ℝ) by norm_num, realToFixed0_natCast]
    decide
  · rw [show (2000 : ℝ) = ((2000 : ℕ) : ℝ) by norm_num, realToFixed0_natCast]
    decide
  · rw [show (1440000 : ℝ) = ((1440000 : ℕ) : ℝ) by norm_num, realToFixed0_natCast]
    decide
  · rw [show (2000000 : ℝ) = ((2000000 : ℕ) : ℝ) by norm_num, realToFixed0_natCast]
    decide

/-- Helper: the jump detector on a two-fix history, case-split on the two
speed thresholds. -/
theorem detectInstantaneousJumps_pair (p q : LocationPoint) :
    detectInstantaneousJumps [p, q] =
      if pairSpeedKmh p q > 1000 ∧ pairDistance p q > 1000 then
        (60, [impossibleTravelIndicator (pairSpeedKmh p q) (pairDistance p q)])
      else if pairSpeedKmh p q > 200 ∧ pairDistance p q > 500 then
        (40, [suspiciousTravelIndicator (pairSpeedKmh p q) (pairDistance p q)])
      else (0, []) := by
  simp only [detectInstantaneousJumps, detectInstantaneousJumpsAux]
  split_ifs with h1 h2
  · simp
  · simp
  · rfl

/-- Helper: exact geometry of the 2,000 km pair. -/
theorem jump2000km_measures :
    pairDistance jumpA jumpB2000km = 2000000 ∧
    pairSpeedKmh jumpA jumpB2000km = 1440000 := by
  have hd : pairDistance jumpA jumpB2000km = 2000000 := by
    show calculateDistance 0 0 0 (lonFor 2000000) = 2000000
    refine calculateDistance_lonFor 2000000 (by norm_num) ?_
    have h3 := Real.pi_gt_three
    have hlt : (2000000 : ℝ) / 6371000 < 3 := by norm_num
    linarith
  refine ⟨hd, ?_⟩
  have ht : pairTimeDiff jumpA jumpB2000km = 5 := by
    show (((5000 : ℚ) - 0 : ℚ) : ℝ) / 1000 = 5
    push_cast
    norm_num
  unfold pairSpeedKmh
  rw [hd, ht]
  norm_num

/-- Helper: exact geometry of the 10 m pair. -/
theorem jump10m_measures :
    pairDistance jumpA jumpB10m = 10 ∧ pairSpeedKmh jumpA jumpB10m = 7.2 := by
  have hd : pairDistance jumpA jumpB10m = 10 := by
    show calculateDistance 0 0 0 (lonFor 10) = 10
    refine calculateDistance_lonFor 10 (by norm_num) ?_
    have h3 := Real.pi_gt_three
    have hlt : (10 : ℝ) / 6371000 < 3 := by norm_num
    linarith
  refine ⟨hd, ?_⟩
  have ht : pairTimeDiff jumpA jumpB10m = 5 := by
    show (((5000 : ℚ) - 0 : ℚ) : ℝ) / 1000 = 5
    push_cast
    norm_num
  unfold pairSpeedKmh
  rw [hd, ht]
  norm_num

/-- Claim C6, counterexample: a pair that is exactly at 1000 km/h over
2000 m — which satisfies the claim's "≥1000 km/h with ≥1 km displacement" —
earns only the 40-point "Suspicious travel speed" indicator, not the high
"impossible travel" score, because the code's comparisons are strict. -/
theorem speed_jump_threshold_counterexample :
    pairSpeedKmh jumpA jumpBedge = 1000 ∧ pairDistance jumpA jumpBedge = 2000 ∧
    detectInstantaneousJumps [jumpA, jumpBedge] =
      (40, ["Suspicious travel speed: 1000 km/h over 2000m"]) := by
  have hd : pairDistance jumpA jumpBedge = 2000 := by
    show calculateDistance 0 0 0 (lonFor 2000) = 2000
    refine calculateDistance_lonFor 2000 (by norm_num) ?_
    have h3 := Real.pi_gt_three
    have hlt : (2000 : ℝ) / 6371000 < 3 := by norm_num
    linarith
  have ht : pairTimeDiff jumpA jumpBedge = 7.2 := by
    show (((7200 : ℚ) - 0 : ℚ) : ℝ) / 1000 = 7.2
    push_cast
    norm_num
  have hs : pairSpeedKmh jumpA jumpBedge = 1000 := by
    unfold pairSpeedKmh
    rw [hd, ht]
    norm_num
  refine ⟨hs, hd, ?_⟩
  rw [detectInstantaneousJumps_pair,
    if_neg (by rw [hs]; exact fun h => lt_irrefl _ h.1),
    if_pos ⟨by rw [hs]; norm_num, by rw [hd]; norm_num⟩,
    hs, hd]
  unfold suspiciousTravelIndicator
  rw [realToFixed0_concrete.1, realToFixed0_concrete.2.1]
  simp only [Prod.mk.injEq]
  refine ⟨trivial, ?_⟩
  decide

/-- Claim C6 (amended): the speed-jump check derives km/h from the
great-circle distance and elapsed time of each consecutive pair; a pair
STRICTLY above 1000 km/h with displacement strictly above 1 km adds the high
(impossible-travel) score of 60, a pair strictly above 200 km/h with
displacement strictly above 500 m adds the medium (suspicious-travel) score
of 40, and otherwise nothing is added; over a longer history each
consecutive pair contributes additively under the same strict thresholds.
In particular two fixes 2,000 km apart with a 5-second gap trigger the
impossible-travel indicator, and two fixes 10 m apart with a 5-second gap
trigger no speed indicator. -/
theorem speed_jump_checks_amended :
    (∀ p q : LocationPoint, pairSpeedKmh p q > 1000 → pairDistance p q > 1000 →
      detectInstantaneousJumps [p, q] =
        (60, [impossibleTravelIndicator (pairSpeedKmh p q) (pairDistance p q)])) ∧
    (∀ p q : LocationPoint, pairSpeedKmh p q > 200 → pairDistance p q > 500 →
      ¬(pairSpeedKmh p q > 1000 ∧ pairDistance p q > 1000) →
      detectInstantaneousJumps [p, q] =
        (40, [suspiciousTravelIndicator (pairSpeedKmh p q) (pairDistance p q)])) ∧
    (∀ p q : LocationPoint, ¬(pairSpeedKmh p q > 1000 ∧ pairDistance p q > 1000) →
      ¬(pairSpeedKmh p q > 200 ∧ pairDistance p q > 500) →
      detectInstantaneousJumps [p, q] = (0, [])) ∧
    detectInstantaneousJumps [jumpA, jumpB2000km] =
      (60, ["Impossible travel speed: 1440000 km/h over 2000000m"]) ∧
    detectInstantaneousJumps [jumpA, jumpB10m] = (0, []) ∧
    (∀ (prev cur : LocationPoint) (rest : List LocationPoint),
      (detectInstantaneousJumpsAux prev (cur :: rest)).1 =
        (if pairSpeedKmh prev cur > 1000 ∧ pairDistance prev cur > 1000 then 60
         else if pairSpeedKmh prev cur > 200 ∧ pairDistance prev cur > 500 then 40
         else 0) + (detectInstantaneousJumpsAux cur rest).1) := by
  refine ⟨?_, ?_, ?_, ?_, ?_, ?_⟩
  · intro p q h1 h2
    rw [detectInstantaneousJumps_pair, if_pos ⟨h1, h2⟩]
  · intro p q h1 h2 h3
    rw [detectInstantaneousJumps_pair, if_neg h3, if_pos ⟨h1, h2⟩]
  · intro p q h1 h2
    rw [detectInstantaneousJumps_pair, if_neg h1, if_neg h2]
  · obtain ⟨hd, hs⟩ := jump2000km_measures
    rw [detectInstantaneousJumps_pair,
      if_pos ⟨by rw [hs]; norm_num, by rw [hd]; norm_num⟩, hs, hd]
    unfold impossibleTravelIndicator
    rw [realToFixed0_concrete.2.2.1, realToFixed0_concrete.2.2.2]
    simp only [Prod.mk.injEq]
    refine ⟨trivial, ?_⟩
    decide
  · obtain ⟨hd, hs⟩ := jump10m_measures
    rw [detectInstantaneousJumps_pair,
      if_neg (by rw [hd]; exact fun h => by norm_num at h),
      if_neg (by rw [hs]; exact fun h => by norm_num at h)]
  · intro prev cur rest
    simp only [detectInstantaneousJumpsAux]
    split_ifs <;> simp

/-- Claim C6, witness: the impossible-travel branch applied to the concrete
2,000 km / 5 s pair. -/
theorem speed_jump_checks_amended_witness :
    detectInstantaneousJumps [jumpA, jumpB2000km] =
      (60, [impossibleTravelIndicator (pairSpeedKmh jumpA jumpB2000km)
              (pairDistance jumpA jumpB2000km)]) :=
  speed_jump_checks_amended.1 jumpA jumpB2000km
    (by rw [jump2000km_measures.2]; norm_num)
    (by rw [jump2000km_measures.1]; norm_num)

/-- Helper: a character-list prefix is also an infix. -/
theorem infixOfB_of_isPrefixOf (needle hay : List Char)
    (h : needle.isPrefixOf hay = true) : infixOfB needle hay = true := by
  cases hay with
  | nil =>
    cases needle with
    | nil => rfl
    | cons c t => simp [List.isPrefixOf] at h
  | cons c t =>
    unfold infixOfB
    rw [h]
    rfl

/-- Helper: a pattern that starts a string literal is found by
`String.prototype.includes` on any extension of that literal. -/
theorem jsIncludes_prefix_append (lit rest pat : String)
    (h : pat.toList.isPrefixOf lit.toList = true) :
    jsIncludes (lit ++ rest) pat = true := by
  unfold jsIncludes
  have hdata : (lit ++ rest).toList = lit.toList ++ rest.toList := by
    simp [String.toList, String.data_append]
  rw [hdata]
  apply infixOfB_of_isPrefixOf
  rw [List.isPrefixOf_iff_prefix] at h ⊢
  exact h.trans (List.prefix_append _ _)

/-- Helper: a nonempty list of equal values dedups to the singleton. -/
theorem dedup_eq_singleton (l : List ℚ) (v : ℚ) (hne : l ≠ [])
    (hall : ∀ a ∈ l, a = v) : l.dedup = [v] := by
  have hvl : v ∈ l := by
    cases l with
    | nil => exact absurd rfl hne
    | cons a t => exact (hall a (List.mem_cons_self a t)) ▸ List.mem_cons_self a t
  have hvd : v ∈ l.dedup := List.mem_dedup.mpr hvl
  have hnd := l.nodup_dedup
  have hsub : ∀ x ∈ l.dedup, x = v := fun x hx => hall x (List.mem_dedup.mp hx)
  cases hd : l.dedup with
  | nil =>
    rw [hd] at hvd
    cases hvd
  | cons b t2 =>
    have hb : b = v := hsub b (by rw [hd]; exact List.mem_cons_self b t2)
    have ht2 : t2 = [] := by
      by_contra hne2
      obtain ⟨c, hc⟩ := List.exists_mem_of_ne_nil t2 hne2
      have hcv : c = v := hsub c (by rw [hd]; exact List.mem_cons_of_mem b hc)
      rw [hd] at hnd
      exact (List.nodup_cons.mp hnd).1 (hb ▸ hcv ▸ hc)
    rw [hb, ht2]

/-- Helper: two distinct members prevent a singleton dedup. -/
theorem dedup_length_ne_one (l : List ℚ) (x y : ℚ) (hx : x ∈ l) (hy : y ∈ l)
    (hxy : x ≠ y) : l.dedup.length ≠ 1 := by
  intro h1
  obtain ⟨a, ha⟩ := List.length_eq_one.mp h1
  have hxd : x ∈ l.dedup := List.mem_dedup.mpr hx
  have hyd : y ∈ l.dedup := List.mem_dedup.mpr hy
  rw [ha] at hxd hyd
  simp only [List.mem_singleton] at hxd hyd
  exact hxy (hxd.trans hyd.symm)

/-- Claim C8: with at least three fixes, an accuracy value that never varies
triggers the static-accuracy indicator and score (20 points, 50 when the
constant is one of the common spoofing-tool defaults 10/20/50/100/150); a
history whose accuracies are not all identical adds nothing. -/
theorem detectStaticAccuracy_spec :
    ∀ hist : List LocationPoint, 3 ≤ hist.length →
      (∀ v : ℚ, (∀ p ∈ hist, p.accuracy = v) →
        20 ≤ (detectStaticAccuracy hist).1 ∧
        (∃ smsg ∈ (detectStaticAccuracy hist).2,
          jsIncludes smsg ("Static accuracy value") = true) ∧
        (v ∈ commonSpoofedValues → (detectStaticAccuracy hist).1 = 50)) ∧
      ((∃ p ∈ hist, ∃ q ∈ hist, p.accuracy ≠ q.accuracy) →
        detectStaticAccuracy hist = (0, [])) := by
  intro hist hlen
  have hmaplen : (hist.map (·.accuracy)).length = hist.length := List.length_map _ _
  have hnotshort : ¬ (hist.map (·.accuracy)).length < 3 := by
    rw [hmaplen]
    omega
  constructor
  · intro v hall
    have hne : hist.map (·.accuracy) ≠ [] := by
      intro h
      rw [h] at hmaplen
      simp at hmaplen
      omega
    have hallm : ∀ a ∈ hist.map (·.accuracy), a = v := by
      intro a ha
      obtain ⟨p, hp, rfl⟩ := List.mem_map.mp ha
      exact hall p hp
    have hded : (hist.map (·.accuracy)).dedup = [v] :=
      dedup_eq_singleton _ v hne hallm
    have hhead : (hist.map (·.accuracy)).headD 0 = v := by
      cases hm : hist.map (·.accuracy) with
      | nil => exact absurd hm hne
      | cons a t =>
        have := hallm a (by rw [hm]; exact List.mem_cons_self a t)
        simpa using this
    simp only [detectStaticAccuracy]
    rw [if_neg hnotshort, hded, hhead]
    simp only [List.length_singleton, if_true]
    refine ⟨?_, ?_, ?_⟩
    · split
      · show (20 : ℚ) ≤ 20 + 30
        norm_num
      · show (20 : ℚ) ≤ 20 + 0
        norm_num
    · refine ⟨"Static accuracy value: " ++ toString v ++ "m (never changes)", ?_, ?_⟩
      · split <;> simp
      · rw [String.append_assoc]
        exact jsIncludes_prefix_append _ _ _ (by decide)
    · intro hv
      rw [if_pos ⟨hv, trivial⟩]
      show (20 : ℚ) + 30 = 50
      norm_num
  · intro ⟨p, hp, q, hq, hpq⟩
    have h1 : (hist.map (·.accuracy)).dedup.length ≠ 1 :=
      dedup_length_ne_one _ _ _ (List.mem_map_of_mem _ hp)
        (List.mem_map_of_mem _ hq) hpq
    simp only [detectStaticAccuracy]
    rw [if_neg hnotshort, if_neg h1, if_neg (fun h => h1 h.2)]
    simp

/-- Claim C8, witness: three fixes of constant accuracy 50 (a common spoofed
default) earn the full 50 points. -/
theorem detectStaticAccuracy_spec_witness :
    (detectStaticAccuracy staticHistory50).1 = 50 :=
  ((detectStaticAccuracy_spec staticHistory50 (by norm_num [staticHistory50])).1 50
    (by
      intro p hp
      simp only [staticHistory50, List.mem_cons, List.not_mem_nil, or_false] at hp
      rcases hp with rfl | rfl | rfl <;> rfl)).2.2
    (by norm_num [commonSpoofedValues])

/-- Claim C10: whenever `startLocationMonitoring` begins a position watch
(geolocation present, watch not already active), it schedules
`stopLocationMonitoring` on a 1-millisecond timer — not the two minutes the
adjacent comment promises — and firing that timeout clears the watch and
drops `monitoringActive`. -/
theorem startLocationMonitoring_schedules_1ms_stop :
    ∀ (geolocationPresent : Bool) (assignedWatchId : ℕ) (st : AnalyzerState),
      geolocationPresent = true → st.monitoringActive = false → assignedWatchId ≠ 0 →
      (startLocationMonitoring geolocationPresent assignedWatchId st).2 =
        [(1, TimerCall.stopLocationMonitoringCall)] ∧
      (startLocationMonitoring geolocationPresent assignedWatchId st).1.monitoringActive
        = true ∧
      (stopLocationMonitoring
        (startLocationMonitoring geolocationPresent assignedWatchId st).1).monitoringActive
        = false ∧
      (stopLocationMonitoring
        (startLocationMonitoring geolocationPresent assignedWatchId st).1).watchId
        = none := by
  intro g id st hg hm hid
  subst hg
  refine ⟨?_, ?_, ?_, ?_⟩ <;>
    simp [startLocationMonitoring, stopLocationMonitoring, jsTruthyWatchId, hm, hid]

/-- Claim C10, witness: starting monitoring from the idle state with watch
id 1 schedules the 1 ms stop, which clears the watch. -/
theorem startLocationMonitoring_schedules_1ms_stop_witness :
    (startLocationMonitoring true 1 idleAnalyzerState).2 =
      [(1, TimerCall.stopLocationMonitoringCall)] ∧
    (startLocationMonitoring true 1 idleAnalyzerState).1.monitoringActive = true ∧
    (stopLocationMonitoring
      (startLocationMonitoring true 1 idleAnalyzerState).1).monitoringActive = false ∧
    (stopLocationMonitoring
      (startLocationMonitoring true 1 idleAnalyzerState).1).watchId = none :=
  startLocationMonitoring_schedules_1ms_stop true 1 idleAnalyzerState rfl rfl
    (by decide)

/-- Claim C4: in the probe environment where only the WebRTC-modification
check fires, `detectBasicArtifacts` returns a strictly positive score of 20
with `detected = false` — the stated `score > 0 ⇒ detected` invariant fails,
because that one branch never sets the `detected` flag. -/
theorem detectBasicArtifacts_webrtc_only :
    ExtensionDetector.detectBasicArtifacts webrtcOnlyEnv =
      { score := 20,
        indicators := ["WebRTC modifications detected (possible VPN)"],
        detected := false } := by
  have h2 : jsIncludes ("[native code]") ("locationguard") = false := by decide
  have h7 : jsIncludes ("function createDataChannel, modified by extension")
      ("native") = false := by decide
  have h6 : (("[native code]" : String).length > 100) = False := by
    simp only [eq_iff_iff, iff_false]
    decide
  simp only [ExtensionDetector.detectBasicArtifacts, webrtcOnlyEnv, h2, h7, h6]
  norm_num

/-- Claim C3, witness: the documented boundary values land on the documented
sides (19 is LOW, 20 is MEDIUM, 39 is MEDIUM, 40 is HIGH, 59 is HIGH, 60 is
CRITICAL). -/
theorem getRiskLevel_step_function_boundaries :
    getRiskLevel 19 = "LOW" ∧ getRiskLevel 20 = "MEDIUM" ∧
    getRiskLevel 39 = "MEDIUM" ∧ getRiskLevel 40 = "HIGH" ∧
    getRiskLevel 59 = "HIGH" ∧ getRiskLevel 60 = "CRITICAL" :=
  ⟨(getRiskLevel_step_function 19).1 (by norm_num),
   (getRiskLevel_step_function 20).2.1 (by norm_num) (by norm_num),
   (getRiskLevel_step_function 39).2.1 (by norm_num) (by norm_num),
   (getRiskLevel_step_function 40).2.2.1 (by norm_num) (by norm_num),
   (getRiskLevel_step_function 59).2.2.1 (by norm_num) (by norm_num),
   (getRiskLevel_step_function 60).2.2.2 (by norm_num)⟩
